import Mathlib

/-!
Verification of the UFRa face re-aging core (face_parser.cpp,
feedforward_generator.cpp, engine.cpp, minimal_engine.cpp, compositor.h)
against its natural-language specification.

Images are modelled as sized grids with a total pixel function: an
8-bit-per-channel pixel holds a `Nat` (value `0..255`); blending arithmetic
done in `float` by the code is modelled over `ℚ` with explicit conversion
back to 8-bit values at each write, matching OpenCV's `saturate_cast` /
C++ `static_cast<uchar>` on the value ranges the code produces.
-/

/-- A single-channel image (`cv::Mat` of type `CV_8UC1`): `rows × cols`
grid of 8-bit values. `px y x` is the value at row `y`, column `x`;
coordinates outside the grid are phantom (operations only consult
in-bounds coordinates of their inputs). -/
structure Mask where
  rows : Nat
  cols : Nat
  px : Nat → Nat → Nat

/-- `cv::Mat::empty()`: no pixels. -/
def Mask.isEmpty (m : Mask) : Bool :=
  m.rows = 0 || m.cols = 0

/-- `cv::Mat()`: the default-constructed empty matrix. -/
def Mask.none : Mask :=
  ⟨0, 0, fun _ _ => 0⟩

/-- `cv::Mat::zeros(size, CV_8UC1)`. -/
def Mask.zeros (r c : Nat) : Mask :=
  ⟨r, c, fun _ _ => 0⟩

/-- `cv::inRange(m, lo, hi, out)` on a single-channel 8-bit matrix:
255 where `lo ≤ value ≤ hi`, 0 elsewhere. -/
def Mask.inRange (m : Mask) (lo hi : Nat) : Mask :=
  ⟨m.rows, m.cols, fun y x => if lo ≤ m.px y x ∧ m.px y x ≤ hi then 255 else 0⟩

/-- `cv::bitwise_or(a, b, out)` (sizes equal in every use site). -/
def Mask.bor (a b : Mask) : Mask :=
  ⟨a.rows, a.cols, fun y x => Nat.lor (a.px y x) (b.px y x)⟩

/-- `cv::bitwise_and(a, b, out)`. -/
def Mask.band (a b : Mask) : Mask :=
  ⟨a.rows, a.cols, fun y x => Nat.land (a.px y x) (b.px y x)⟩

/-- `~m` on an 8-bit matrix: bitwise complement, i.e. `255 - v` for `v ≤ 255`. -/
def Mask.bnot (m : Mask) : Mask :=
  ⟨m.rows, m.cols, fun y x => 255 - m.px y x⟩

/-- The window of source coordinates a `cv::dilate` with a rectangular
structuring element reads for output pixel `(y, x)`: `a` rows/columns
before the anchor and `b` after it (for a 15×15 kernel `a = b = 7`;
for a 20×20 kernel with default anchor `a = 9`, `b = 10`), intersected
with the image bounds. -/
def dilateWindow (rows cols a b y x : Nat) : Finset (Nat × Nat) :=
  (Finset.range rows ×ˢ Finset.range cols).filter
    (fun p => y ≤ p.1 + a ∧ p.1 ≤ y + b ∧ x ≤ p.2 + a ∧ p.2 ≤ x + b)

/-- `cv::dilate(m, out, kernel)` with a rectangular kernel: each output
pixel is the maximum of the in-bounds source pixels in the kernel window
(out-of-bounds positions do not contribute, matching OpenCV's default
border handling for dilation). -/
def Mask.dilate (m : Mask) (a b : Nat) : Mask :=
  ⟨m.rows, m.cols, fun y x => (dilateWindow m.rows m.cols a b y x).sup (fun p => m.px p.1 p.2)⟩

/-! ## face_parser.cpp: region-mask operations (FaceParser::Impl) -/

/-- `FaceParser::Impl::getRegionMask`: empty input gives `cv::Mat()`;
otherwise, starting from a zero mask, for each requested label id the
exact-match selection is OR-ed in. -/
def getRegionMask (full_mask : Mask) (region_indices : List Nat) : Mask :=
  if full_mask.isEmpty then Mask.none
  else region_indices.foldl
    (fun region_mask region_idx => region_mask.bor (full_mask.inRange region_idx region_idx))
    (Mask.zeros full_mask.rows full_mask.cols)

/-- `FaceParser::Impl::getEyesMask`: labels 4, 5 (l_eye, r_eye). -/
def getEyesMask (full_mask : Mask) : Mask :=
  getRegionMask full_mask [4, 5]

/-- `FaceParser::Impl::getForeheadMask`: skin (label 1) AND the 15×15
dilation of the eyebrow selection (labels 6..7). -/
def getForeheadMask (full_mask : Mask) : Mask :=
  let skin_mask := full_mask.inRange 1 1
  let brow_mask := full_mask.inRange 6 7
  let dilated_brow := brow_mask.dilate 7 7
  skin_mask.band dilated_brow

/-- `FaceParser::Impl::getCheeksMask`: skin (label 1) AND NOT the 20×20
dilation of the union of nose (label 2) and mouth area (labels 10..12). -/
def getCheeksMask (full_mask : Mask) : Mask :=
  let skin_mask := full_mask.inRange 1 1
  let nose_mask := full_mask.inRange 2 2
  let mouth_mask := full_mask.inRange 10 12
  let central_mask := nose_mask.bor mouth_mask
  let dilated_central := central_mask.dilate 9 10
  skin_mask.band dilated_central.bnot

/-- `FaceParser::Impl::getMouthMask`: labels 10, 11, 12 (mouth, u_lip, l_lip). -/
def getMouthMask (full_mask : Mask) : Mask :=
  getRegionMask full_mask [10, 11, 12]

/-- `static_cast<int>(rows * 0.6)` in `getJawMask`. The C++ multiplies by
the double `0.6` and truncates; `0.6` is slightly below 6/10, so the
result is `⌈rows * 6 / 10⌉ - 1` when `rows * 6` is an exact multiple of 10
and `rows > 0` is large enough for the representation gap — modelled here
by the exact rational computation `⌊rows * (6/10)⌋`, which the claims
under verification never distinguish from the float value. -/
def jawStartRow (rows : Nat) : Nat :=
  rows * 6 / 10

/-- `FaceParser::Impl::getJawMask`: skin (label 1) AND the lower-rows
mask, whose rows from `start_row = rows * 0.6` down are 255. -/
def getJawMask (full_mask : Mask) : Mask :=
  let skin_mask := full_mask.inRange 1 1
  let start_row := jawStartRow full_mask.rows
  let lower_mask : Mask :=
    ⟨full_mask.rows, full_mask.cols, fun y _ => if start_row ≤ y then 255 else 0⟩
  skin_mask.band lower_mask

/-- `FaceParser::Impl::getNeckMask`: label 17 (neck). -/
def getNeckMask (full_mask : Mask) : Mask :=
  getRegionMask full_mask [17]

/-- `FaceParser::Impl::getHairMask`: label 13 (hair). -/
def getHairMask (full_mask : Mask) : Mask :=
  getRegionMask full_mask [13]

/-- `FaceParser::Impl::getEyebrowsMask`: labels 6, 7 (l_brow, r_brow). -/
def getEyebrowsMask (full_mask : Mask) : Mask :=
  getRegionMask full_mask [6, 7]

/-- Every in-bounds pixel of the mask is exactly 0 or 255. -/
def Mask.Binary (m : Mask) : Prop :=
  ∀ y < m.rows, ∀ x < m.cols, m.px y x = 0 ∨ m.px y x = 255

/-! ## Helper lemmas: binary pixels -/

theorem binary_lor {a b : Nat} (ha : a = 0 ∨ a = 255) (hb : b = 0 ∨ b = 255) :
    Nat.lor a b = 0 ∨ Nat.lor a b = 255 := by
  rcases ha with h | h <;> rcases hb with h2 | h2 <;> subst h <;> subst h2 <;> decide

theorem binary_land {a b : Nat} (ha : a = 0 ∨ a = 255) (hb : b = 0 ∨ b = 255) :
    Nat.land a b = 0 ∨ Nat.land a b = 255 := by
  rcases ha with h | h <;> rcases hb with h2 | h2 <;> subst h <;> subst h2 <;> decide

theorem binary_sub {a : Nat} (ha : a = 0 ∨ a = 255) :
    255 - a = 0 ∨ 255 - a = 255 := by
  rcases ha with h | h <;> subst h <;> decide

theorem finset_sup_binary {α : Type} [DecidableEq α] (s : Finset α) (f : α → Nat)
    (h : ∀ a ∈ s, f a = 0 ∨ f a = 255) : s.sup f = 0 ∨ s.sup f = 255 := by
  induction s using Finset.induction_on with
  | empty => left; rfl
  | insert hnot ih =>
    rename_i a s
    rw [Finset.sup_insert]
    rcases h a (Finset.mem_insert_self a s) with h1 | h1 <;>
      rcases ih (fun b hb => h b (Finset.mem_insert_of_mem hb)) with h2 | h2 <;>
        rw [h1, h2] <;> simp

theorem inRange_px_binary (m : Mask) (lo hi y x : Nat) :
    (m.inRange lo hi).px y x = 0 ∨ (m.inRange lo hi).px y x = 255 := by
  simp only [Mask.inRange]
  split <;> simp

theorem mem_dilateWindow {rows cols a b y x : Nat} {p : Nat × Nat} :
    p ∈ dilateWindow rows cols a b y x ↔
      p.1 < rows ∧ p.2 < cols ∧ y ≤ p.1 + a ∧ p.1 ≤ y + b ∧ x ≤ p.2 + a ∧ p.2 ≤ x + b := by
  simp only [dilateWindow, Finset.mem_filter, Finset.mem_product, Finset.mem_range]
  tauto

theorem dilate_px_binary (m : Mask) (a b : Nat)
    (h : ∀ y2 < m.rows, ∀ x2 < m.cols, m.px y2 x2 = 0 ∨ m.px y2 x2 = 255) (y x : Nat) :
    (m.dilate a b).px y x = 0 ∨ (m.dilate a b).px y x = 255 := by
  apply finset_sup_binary
  intro p hp
  rcases mem_dilateWindow.mp hp with ⟨h1, h2, _⟩
  exact h p.1 h1 p.2 h2

/-- Characterisation of dilation of an (in-bounds) binary mask: the output
pixel is 255 exactly when some in-bounds source pixel inside the kernel
window is 255, and 0 otherwise. -/
theorem dilate_px_eq (m : Mask) (a b y x : Nat)
    (hbin : ∀ y2 < m.rows, ∀ x2 < m.cols, m.px y2 x2 = 0 ∨ m.px y2 x2 = 255) :
    (m.dilate a b).px y x =
      (if ∃ y2 < m.rows, ∃ x2 < m.cols,
          y ≤ y2 + a ∧ y2 ≤ y + b ∧ x ≤ x2 + a ∧ x2 ≤ x + b ∧ m.px y2 x2 = 255
       then 255 else 0) := by
  simp only [Mask.dilate]
  split
  case isTrue h =>
    obtain ⟨y2, hy2, x2, hx2, h1, h2, h3, h4, hv⟩ := h
    apply le_antisymm
    · apply Finset.sup_le
      intro p hp
      rcases mem_dilateWindow.mp hp with ⟨hp1, hp2, _⟩
      rcases hbin p.1 hp1 p.2 hp2 with he | he <;> omega
    · have hmem : ((y2, x2) : Nat × Nat) ∈ dilateWindow m.rows m.cols a b y x :=
        mem_dilateWindow.mpr ⟨hy2, hx2, h1, h2, h3, h4⟩
      calc (255 : Nat) = m.px y2 x2 := hv.symm
        _ ≤ _ := Finset.le_sup (f := fun p : Nat × Nat => m.px p.1 p.2) hmem
  case isFalse h =>
    rw [← Nat.le_zero]
    apply Finset.sup_le
    intro p hp
    rcases mem_dilateWindow.mp hp with ⟨hp1, hp2, h1, h2, h3, h4⟩
    rcases hbin p.1 hp1 p.2 hp2 with he | he
    · omega
    · exact absurd ⟨p.1, hp1, p.2, hp2, h1, h2, h3, h4, he⟩ h

theorem getRegionMask_px_binary (m : Mask) (idxs : List Nat) (y x : Nat) :
    (getRegionMask m idxs).px y x = 0 ∨ (getRegionMask m idxs).px y x = 255 := by
  unfold getRegionMask
  split
  · left; rfl
  · have h : ∀ (idxs2 : List Nat) (acc : Mask),
        (∀ y2 x2, acc.px y2 x2 = 0 ∨ acc.px y2 x2 = 255) →
        ∀ y2 x2, (idxs2.foldl
            (fun region_mask region_idx =>
              region_mask.bor (m.inRange region_idx region_idx)) acc).px y2 x2 = 0 ∨
          (idxs2.foldl
            (fun region_mask region_idx =>
              region_mask.bor (m.inRange region_idx region_idx)) acc).px y2 x2 = 255 := by
      intro idxs2
      induction idxs2 with
      | nil => intro acc hacc; exact hacc
      | cons i rest ih =>
        intro acc hacc
        apply ih
        intro y2 x2
        exact binary_lor (hacc y2 x2) (inRange_px_binary m i i y2 x2)
    exact h idxs (Mask.zeros m.rows m.cols) (fun _ _ => Or.inl rfl) y x

/-- C4: every pixel of every region mask produced by the FaceParser region
operations (eyes, eyebrows, mouth, hair, neck, forehead, cheeks, jaw) is
exactly 0 or 255, for every input label map. -/
theorem region_masks_binary (m : Mask) :
    (getEyesMask m).Binary ∧ (getEyebrowsMask m).Binary ∧ (getMouthMask m).Binary ∧
    (getHairMask m).Binary ∧ (getNeckMask m).Binary ∧ (getForeheadMask m).Binary ∧
    (getCheeksMask m).Binary ∧ (getJawMask m).Binary := by
  refine ⟨fun y _ x _ => getRegionMask_px_binary m _ y x,
          fun y _ x _ => getRegionMask_px_binary m _ y x,
          fun y _ x _ => getRegionMask_px_binary m _ y x,
          fun y _ x _ => getRegionMask_px_binary m _ y x,
          fun y _ x _ => getRegionMask_px_binary m _ y x, ?_, ?_, ?_⟩
  · intro y _ x _
    exact binary_land (inRange_px_binary m 1 1 y x)
      (dilate_px_binary (m.inRange 6 7) 7 7 (fun y2 _ x2 _ => inRange_px_binary m 6 7 y2 x2) y x)
  · intro y _ x _
    apply binary_land (inRange_px_binary m 1 1 y x)
    apply binary_sub
    apply dilate_px_binary
    intro y2 _ x2 _
    exact binary_lor (inRange_px_binary m 2 2 y2 x2) (inRange_px_binary m 10 12 y2 x2)
  · intro y _ x _
    apply binary_land (inRange_px_binary m 1 1 y x)
    simp only [getJawMask]
    split <;> simp

/-! ## C5: forehead mask refinement -/

/-- The forehead mask as the specification words it: skin pixels (label 1)
intersected with the 15×15 rectangular dilation of the eyebrow selection
(labels 6 and 7); the dilation of a pixel selection contains a pixel
exactly when some in-bounds selected pixel lies in its 15×15 window. -/
def foreheadSpecMask (m : Mask) : Mask :=
  ⟨m.rows, m.cols, fun y x =>
    if m.px y x = 1 ∧ ∃ y2 < m.rows, ∃ x2 < m.cols,
        y ≤ y2 + 7 ∧ y2 ≤ y + 7 ∧ x ≤ x2 + 7 ∧ x2 ≤ x + 7 ∧
        (m.px y2 x2 = 6 ∨ m.px y2 x2 = 7)
    then 255 else 0⟩

theorem inRange67_eq_255 (m : Mask) (y2 x2 : Nat) :
    (m.inRange 6 7).px y2 x2 = 255 ↔ (m.px y2 x2 = 6 ∨ m.px y2 x2 = 7) := by
  by_cases h : 6 ≤ m.px y2 x2 ∧ m.px y2 x2 ≤ 7 <;> simp [Mask.inRange, h] <;> omega

theorem inRange11_eq (m : Mask) (y x : Nat) :
    (m.inRange 1 1).px y x = if m.px y x = 1 then 255 else 0 := by
  simp only [Mask.inRange]
  split_ifs <;> first | rfl | omega

/-- C5: `getForeheadMask` agrees everywhere (same size, same pixels) with
the spec's description — skin selection intersected with the 15×15
dilation of the eyebrow selection — and on any label map with no
in-bounds pixel labelled 6 or 7 every pixel of the result is 0. -/
theorem getForeheadMask_spec (m : Mask) :
    ((getForeheadMask m).rows = (foreheadSpecMask m).rows ∧
     (getForeheadMask m).cols = (foreheadSpecMask m).cols ∧
     ∀ y x, (getForeheadMask m).px y x = (foreheadSpecMask m).px y x) ∧
    ((∀ y < m.rows, ∀ x < m.cols, m.px y x ≠ 6 ∧ m.px y x ≠ 7) →
     ∀ y x, (getForeheadMask m).px y x = 0) := by
  have hpx : ∀ y x, (getForeheadMask m).px y x = (foreheadSpecMask m).px y x := by
    intro y x
    show Nat.land ((m.inRange 1 1).px y x) (((m.inRange 6 7).dilate 7 7).px y x) = _
    rw [dilate_px_eq (m.inRange 6 7) 7 7 y x (fun y2 _ x2 _ => inRange_px_binary m 6 7 y2 x2),
        inRange11_eq]
    have hex : (∃ y2 < (m.inRange 6 7).rows, ∃ x2 < (m.inRange 6 7).cols,
        y ≤ y2 + 7 ∧ y2 ≤ y + 7 ∧ x ≤ x2 + 7 ∧ x2 ≤ x + 7 ∧
          (m.inRange 6 7).px y2 x2 = 255) ↔
        (∃ y2 < m.rows, ∃ x2 < m.cols,
          y ≤ y2 + 7 ∧ y2 ≤ y + 7 ∧ x ≤ x2 + 7 ∧ x2 ≤ x + 7 ∧
          (m.px y2 x2 = 6 ∨ m.px y2 x2 = 7)) := by
      constructor
      · rintro ⟨y2, hy2, x2, hx2, h1, h2, h3, h4, hv⟩
        exact ⟨y2, hy2, x2, hx2, h1, h2, h3, h4, (inRange67_eq_255 m y2 x2).mp hv⟩
      · rintro ⟨y2, hy2, x2, hx2, h1, h2, h3, h4, hv⟩
        exact ⟨y2, hy2, x2, hx2, h1, h2, h3, h4, (inRange67_eq_255 m y2 x2).mpr hv⟩
    show _ = if m.px y x = 1 ∧ ∃ y2 < m.rows, ∃ x2 < m.cols,
        y ≤ y2 + 7 ∧ y2 ≤ y + 7 ∧ x ≤ x2 + 7 ∧ x2 ≤ x + 7 ∧
        (m.px y2 x2 = 6 ∨ m.px y2 x2 = 7) then 255 else 0
    by_cases h1 : m.px y x = 1 <;>
      by_cases h2 : ∃ y2 < m.rows, ∃ x2 < m.cols,
        y ≤ y2 + 7 ∧ y2 ≤ y + 7 ∧ x ≤ x2 + 7 ∧ x2 ≤ x + 7 ∧
        (m.px y2 x2 = 6 ∨ m.px y2 x2 = 7)
    · rw [if_pos h1, if_pos (hex.mpr h2), if_pos ⟨h1, h2⟩]; decide
    · rw [if_pos h1, if_neg (fun hc => h2 (hex.mp hc)), if_neg (fun hc => h2 hc.2)]; decide
    · rw [if_neg h1, if_pos (hex.mpr h2), if_neg (fun hc => h1 hc.1)]; decide
    · rw [if_neg h1, if_neg (fun hc => h2 (hex.mp hc)), if_neg (fun hc => h1 hc.1)]; decide
  refine ⟨⟨rfl, rfl, hpx⟩, ?_⟩
  intro hno y x
  rw [hpx y x]
  simp only [foreheadSpecMask]
  rw [if_neg]
  rintro ⟨-, y2, hy2, x2, hx2, -, -, -, -, hv⟩
  have := hno y2 hy2 x2 hx2
  tauto

/-- A 3×3 label map whose first row is skin (label 1), with one hair
pixel (label 13) and no eyebrow pixels (labels 6/7 absent). -/
def foreheadExample : Mask :=
  ⟨3, 3, fun y x => if y = 0 then 1 else if y = 1 ∧ x = 1 then 13 else 0⟩

theorem getForeheadMask_spec_witness :
    (getForeheadMask foreheadExample).px 0 1 = 0 :=
  (getForeheadMask_spec foreheadExample).2 (by decide) 0 1

/-! ## Image model (3-channel 8-bit `cv::Mat` / `ImageData`) -/

/-- A 3-channel 8-bit image: `rows × cols` grid, `px y x c` the value of
channel `c` at row `y`, column `x`. Out-of-range coordinates are phantom,
as for `Mask`. -/
structure Img where
  rows : Nat
  cols : Nat
  channels : Nat
  px : Nat → Nat → Nat → Nat

/-- `cv::Mat::empty()` / `ImageData::empty()`: no pixels. -/
def Img.isEmpty (i : Img) : Bool :=
  i.rows = 0 || i.cols = 0

/-- `cv::Mat::clone()`: a byte-for-byte copy (value-equal in this model). -/
def Img.clone (i : Img) : Img := i

/-- A default-constructed `ImageData` / `cv::Mat`: zero-sized. -/
def Img.mkEmpty : Img :=
  ⟨0, 0, 3, fun _ _ _ => 0⟩

/-- `saturate_cast<uchar>` applied to a float, as `cv::addWeighted` does:
round to nearest, clamp to `0..255`. -/
def saturateCastUChar (q : ℚ) : Nat :=
  (min 255 (max 0 (round q))).toNat

/-- `static_cast<uchar>(float)` as `blendRegion` does: truncation toward
zero. Every call site produces a value in `[0, 255]` (a convex combination
of 8-bit values); conversion of an out-of-range float would be undefined
behaviour in the C++ and is modelled as clamping. -/
def ucharOfFloat (q : ℚ) : Nat :=
  (min 255 (max 0 ⌊q⌋)).toNat

/-- `cv::addWeighted(a, alpha, b, beta, 0, out)`: per-pixel
`saturate_cast<uchar>(alpha*a + beta*b)`; the two inputs must have equal
sizes, which every caller modelled here checks or guarantees. -/
def addWeighted (a : Img) (alpha : ℚ) (b : Img) (beta : ℚ) : Img :=
  ⟨a.rows, a.cols, a.channels, fun y x c =>
    saturateCastUChar (alpha * (a.px y x c : ℚ) + beta * (b.px y x c : ℚ))⟩

/-! ## feedforward_generator.cpp (FeedforwardGenerator::Impl) -/

/-- `AgeControls` (types.h). The `age_map` member is omitted: no code
modelled here ever reads it. -/
structure AgeControls where
  target_age : ℚ
  identity_lock_strength : ℚ
  temporal_stability : ℚ
  texture_keep : ℚ
  skin_clean : ℚ
  enable_hair_aging : Bool
  enable_beard_aging : Bool
  enable_neck_aging : Bool
  gray_density : ℚ

/-- `FeedforwardGenerator::Impl::blendRegion`: if the mask is empty the
aged image is left untouched; otherwise, for every in-bounds pixel whose
normalized mask value exceeds 0.5, every channel is recomputed as
`original*(1-aged_strength) + aged*aged_strength`, cast back to `uchar`. -/
def blendRegion (original : Img) (aged : Img) (mask : Mask) (aged_strength : ℚ) : Img :=
  if mask.isEmpty then aged
  else
    ⟨aged.rows, aged.cols, aged.channels, fun y x c =>
      if y < aged.rows ∧ x < aged.cols ∧ (mask.px y x : ℚ) / 255 > 1 / 2 then
        ucharOfFloat ((original.px y x c : ℚ) * (1 - aged_strength) +
          (aged.px y x c : ℚ) * aged_strength)
      else aged.px y x c⟩

/-- `FeedforwardGenerator::Impl::applyRegionalBlending`: region selections
are taken from the parsing mask by the value ranges hard-coded here
(hair = 1, forehead = 2, eyes = 3..4, mouth = 5..6 — NOT the CelebAMask-HQ
vocabulary the FaceParser documents) and each is blended toward the
original at a fixed strength: hair at 0.8 when hair aging is enabled and
0.1 otherwise, then eyes at 0.3, then mouth at 0.4. The `forehead_mask`
is computed but never used, exactly as in the source. -/
def applyRegionalBlending (original : Img) (aged : Img) (parsing_mask : Mask)
    (controls : AgeControls) : Img :=
  let hair_mask := parsing_mask.inRange 1 1
  let forehead_mask := parsing_mask.inRange 2 2
  let eye_mask := parsing_mask.inRange 3 4
  let mouth_mask := parsing_mask.inRange 5 6
  let aged1 :=
    if controls.enable_hair_aging then blendRegion original aged hair_mask (8 / 10)
    else blendRegion original aged hair_mask (1 / 10)
  let aged2 := blendRegion original aged1 eye_mask (3 / 10)
  blendRegion original aged2 mouth_mask (4 / 10)

/-- `FeedforwardGenerator::Impl::generateAgedFace`. The inference middle
section (resize to the input resolution, normalize, `blobFromImage`,
`net_.forward()`, `imagesFromBlob`, denormalize to 8-bit) is an opaque
external collaborator, modelled as `net : Img → ℚ → Option Img` from the
input crop and the normalized age `target_age / 100` to the 8-bit
`result_uint8`; `none` models an exception thrown inside the `try` block,
which the `catch` turns into a clone of the input. `cv::addWeighted`
throws when `result_uint8` and `face_crop` differ in size; the same
`catch` then returns a clone of the input, modelled by the explicit size
test. -/
def generateAgedFace (model_loaded : Bool) (net : Img → ℚ → Option Img)
    (face_crop : Img) (controls : AgeControls) (parsing_mask : Mask) : Img :=
  if !model_loaded || face_crop.isEmpty then face_crop.clone
  else
    match net face_crop (controls.target_age / 100) with
    | Option.none => face_crop.clone
    | Option.some result_uint8 =>
      if result_uint8.rows = face_crop.rows ∧ result_uint8.cols = face_crop.cols ∧
          result_uint8.channels = face_crop.channels then
        let final_result := addWeighted face_crop controls.identity_lock_strength
          result_uint8 (1 - controls.identity_lock_strength)
        if !parsing_mask.isEmpty then
          applyRegionalBlending face_crop final_result parsing_mask controls
        else final_result
      else face_crop.clone

/-! ## C6: identity-lock blend idempotence -/

theorem saturateCastUChar_natCast (v : Nat) (h : v ≤ 255) :
    saturateCastUChar (v : ℚ) = v := by
  unfold saturateCastUChar
  rw [round_natCast]
  omega

theorem ucharOfFloat_natCast (v : Nat) (h : v ≤ 255) :
    ucharOfFloat (v : ℚ) = v := by
  unfold ucharOfFloat
  rw [Int.floor_natCast]
  omega

/-- C6: blending with identity-lock strength 1.0 and every region override
at strength 0 reproduces the original crop exactly: the identity blend
weights the original by the lock strength and the transformed crop by one
minus it, and each strength-0 `blendRegion` pass leaves every in-bounds
pixel at its original value, for any sequence of region masks. -/
theorem blend_identity_lock (original transformed : Img) (masks : List Mask)
    (hval : ∀ y < original.rows, ∀ x < original.cols, ∀ c < original.channels,
      original.px y x c ≤ 255) :
    (masks.foldl (fun aged m => blendRegion original aged m 0)
        (addWeighted original 1 transformed (1 - 1))).rows = original.rows ∧
    (masks.foldl (fun aged m => blendRegion original aged m 0)
        (addWeighted original 1 transformed (1 - 1))).cols = original.cols ∧
    (masks.foldl (fun aged m => blendRegion original aged m 0)
        (addWeighted original 1 transformed (1 - 1))).channels = original.channels ∧
    ∀ y < original.rows, ∀ x < original.cols, ∀ c < original.channels,
      (masks.foldl (fun aged m => blendRegion original aged m 0)
        (addWeighted original 1 transformed (1 - 1))).px y x c = original.px y x c := by
  have hstep : ∀ (aged : Img) (m : Mask),
      aged.rows = original.rows → aged.cols = original.cols →
      aged.channels = original.channels →
      (∀ y < original.rows, ∀ x < original.cols, ∀ c < original.channels,
        aged.px y x c = original.px y x c) →
      (blendRegion original aged m 0).rows = original.rows ∧
      (blendRegion original aged m 0).cols = original.cols ∧
      (blendRegion original aged m 0).channels = original.channels ∧
      ∀ y < original.rows, ∀ x < original.cols, ∀ c < original.channels,
        (blendRegion original aged m 0).px y x c = original.px y x c := by
    intro aged m hr hc hch hpx
    unfold blendRegion
    split
    · exact ⟨hr, hc, hch, hpx⟩
    · refine ⟨hr, hc, hch, ?_⟩
      intro y hy x hx c hcc
      show (if y < aged.rows ∧ x < aged.cols ∧ (m.px y x : ℚ) / 255 > 1 / 2 then
          ucharOfFloat ((original.px y x c : ℚ) * (1 - 0) + (aged.px y x c : ℚ) * 0)
        else aged.px y x c) = original.px y x c
      split
      · rw [hpx y hy x hx c hcc]
        have h2 : ((original.px y x c : ℚ)) * (1 - 0) + (original.px y x c : ℚ) * 0 =
            ((original.px y x c : Nat) : ℚ) := by ring
        rw [h2, ucharOfFloat_natCast _ (hval y hy x hx c hcc)]
      · exact hpx y hy x hx c hcc
  have hbase : ∀ (ms : List Mask) (aged : Img),
      aged.rows = original.rows → aged.cols = original.cols →
      aged.channels = original.channels →
      (∀ y < original.rows, ∀ x < original.cols, ∀ c < original.channels,
        aged.px y x c = original.px y x c) →
        (ms.foldl (fun a m => blendRegion original a m 0) aged).rows = original.rows ∧
        (ms.foldl (fun a m => blendRegion original a m 0) aged).cols = original.cols ∧
        (ms.foldl (fun a m => blendRegion original a m 0) aged).channels = original.channels ∧
        ∀ y < original.rows, ∀ x < original.cols, ∀ c < original.channels,
          (ms.foldl (fun a m => blendRegion original a m 0) aged).px y x c =
            original.px y x c := by
    intro ms
    induction ms with
    | nil => intro aged hr hc hch hpx; exact ⟨hr, hc, hch, hpx⟩
    | cons m rest ih =>
      intro aged hr hc hch hpx
      rw [List.foldl_cons]
      obtain ⟨h1, h2, h3, h4⟩ := hstep aged m hr hc hch hpx
      exact ih (blendRegion original aged m 0) h1 h2 h3 h4
  apply hbase
  · rfl
  · rfl
  · rfl
  · intro y hy x hx c hcc
    show saturateCastUChar (1 * (original.px y x c : ℚ) +
      (1 - 1) * (transformed.px y x c : ℚ)) = original.px y x c
    have : (1 : ℚ) * (original.px y x c : ℚ) + (1 - 1) * (transformed.px y x c : ℚ) =
        ((original.px y x c : Nat) : ℚ) := by ring
    rw [this, saturateCastUChar_natCast _ (hval y hy x hx c hcc)]

/-- A constant 2×2 test crop with value 100 everywhere. -/
def blendExampleOriginal : Img := ⟨2, 2, 3, fun _ _ _ => 100⟩

/-- A constant 2×2 "transformed" crop with value 230 everywhere. -/
def blendExampleTransformed : Img := ⟨2, 2, 3, fun _ _ _ => 230⟩

/-- A 2×2 mask selecting every pixel. -/
def blendExampleMask : Mask := ⟨2, 2, fun _ _ => 255⟩

theorem blend_identity_lock_witness :
    ([blendExampleMask].foldl (fun aged m => blendRegion blendExampleOriginal aged m 0)
        (addWeighted blendExampleOriginal 1 blendExampleTransformed (1 - 1))).rows =
      blendExampleOriginal.rows ∧
    ([blendExampleMask].foldl (fun aged m => blendRegion blendExampleOriginal aged m 0)
        (addWeighted blendExampleOriginal 1 blendExampleTransformed (1 - 1))).cols =
      blendExampleOriginal.cols ∧
    ([blendExampleMask].foldl (fun aged m => blendRegion blendExampleOriginal aged m 0)
        (addWeighted blendExampleOriginal 1 blendExampleTransformed (1 - 1))).channels =
      blendExampleOriginal.channels ∧
    ∀ y < blendExampleOriginal.rows, ∀ x < blendExampleOriginal.cols,
      ∀ c < blendExampleOriginal.channels,
      ([blendExampleMask].foldl (fun aged m => blendRegion blendExampleOriginal aged m 0)
        (addWeighted blendExampleOriginal 1 blendExampleTransformed (1 - 1))).px y x c =
        blendExampleOriginal.px y x c :=
  blend_identity_lock blendExampleOriginal blendExampleTransformed [blendExampleMask]
    (by decide)

/-! ## C7: regional blending vs the parser label vocabulary -/

/-- A 1×2 crop that is 0 everywhere (the "original"). -/
def hairExampleOriginal : Img := ⟨1, 2, 3, fun _ _ _ => 0⟩

/-- A 1×2 crop that is 200 everywhere (the "aged" result before regional
blending). -/
def hairExampleAged : Img := ⟨1, 2, 3, fun _ _ _ => 200⟩

/-- A 1×2 parsing mask in the parser's documented CelebAMask-HQ
vocabulary: pixel (0,0) is hair (label 13), pixel (0,1) is skin (label 1). -/
def hairExampleMask : Mask := ⟨1, 2, fun _ x => if x = 0 then 13 else 1⟩

/-- AgeControls with hair aging disabled. -/
def hairExampleControls : AgeControls :=
  ⟨70, 1 / 2, 9 / 10, 6 / 10, 0, false, false, false, 1 / 2⟩

/-- C7 evaluated at the failing input: with hair aging disabled, the
regional blend leaves the pixel labelled 13 — hair under the parser's
documented vocabulary — at the full aged value 200 (no forcing toward the
original at all), while the pixel labelled 1 — skin under that
vocabulary, but selected as "hair" by the generator's hard-coded range —
is forced to the near-original value 20. -/
theorem applyRegionalBlending_ignores_hair_label :
    (applyRegionalBlending hairExampleOriginal hairExampleAged hairExampleMask
      hairExampleControls).px 0 0 0 = 200 ∧
    (applyRegionalBlending hairExampleOriginal hairExampleAged hairExampleMask
      hairExampleControls).px 0 1 0 = 20 := by
  constructor
  · simp [applyRegionalBlending, blendRegion, Mask.isEmpty, Mask.inRange, ucharOfFloat,
      hairExampleOriginal, hairExampleAged, hairExampleMask, hairExampleControls]
    norm_num
  · simp [applyRegionalBlending, blendRegion, Mask.isEmpty, Mask.inRange, ucharOfFloat,
      hairExampleOriginal, hairExampleAged, hairExampleMask, hairExampleControls]
    norm_num
    decide

/-! ## C8: generator soft-fail semantics -/

/-- C8: whenever the feedforward generator cannot produce a valid
same-size transformed crop — model not loaded, empty input crop, an
internal inference failure, or a size-incompatible intermediate result —
`generateAgedFace` returns the original crop unchanged and never
propagates an error. -/
theorem generateAgedFace_soft_fail (model_loaded : Bool) (net : Img → ℚ → Option Img)
    (face_crop : Img) (controls : AgeControls) (parsing_mask : Mask)
    (h : model_loaded = false ∨ face_crop.isEmpty = true ∨
        net face_crop (controls.target_age / 100) = Option.none ∨
        ∀ r, net face_crop (controls.target_age / 100) = Option.some r →
          ¬(r.rows = face_crop.rows ∧ r.cols = face_crop.cols ∧
            r.channels = face_crop.channels)) :
    generateAgedFace model_loaded net face_crop controls parsing_mask = face_crop := by
  unfold generateAgedFace
  rcases h with h | h | h | h
  · rw [h]; simp [Img.clone]
  · rw [h]; simp [Img.clone]
  · split
    · rfl
    · rw [h]
      rfl
  · split
    · rfl
    · split
      · rfl
      · rename_i r hnet
        rw [if_neg (h r hnet)]
        rfl

/-- A 2×2 crop used as input to the soft-fail witness. -/
def softFailCrop : Img := ⟨2, 2, 3, fun _ _ _ => 50⟩

theorem generateAgedFace_soft_fail_witness :
    generateAgedFace false (fun _ _ => Option.some ⟨3, 3, 3, fun _ _ _ => 7⟩)
      softFailCrop hairExampleControls (Mask.zeros 2 2) = softFailCrop :=
  generateAgedFace_soft_fail false (fun _ _ => Option.some ⟨3, 3, 3, fun _ _ _ => 7⟩)
    softFailCrop hairExampleControls (Mask.zeros 2 2) (Or.inl rfl)

/-! ## engine.cpp / minimal_engine.cpp: the frame orchestrator -/

/-- `ProcessingMode` (types.h). -/
inductive ProcessingMode where
  | FEEDFORWARD
  | DIFFUSION
  | HYBRID
  | AUTO
deriving DecidableEq

/-- `FaceBox` (types.h). -/
structure FaceBox where
  x : ℚ
  y : ℚ
  width : ℚ
  height : ℚ
  confidence : ℚ
  face_id : Int

/-- `Face` (types.h). The landmark list and transform matrix are never
consulted by the code modelled here and are omitted. -/
structure Face where
  box : FaceBox
  aligned_crop : Img
  track_id : Int
  frame_number : Int

/-- `FrameContext` (types.h); `optical_flow` is never consulted by the
code modelled here and is omitted. -/
structure FrameContext where
  frame_number : Int
  input_frame : Img
  detected_faces : List Face
  controls : AgeControls
  mode : ProcessingMode

/-- `ProcessingResult` (types.h). The metrics `std::map` is modelled as
the association list of the key/value assignments the code performs. -/
structure ProcessingResult where
  output_frame : Img
  processed_faces : List Face
  metrics : List (String × ℚ)
  success : Bool
  error_message : String

/-- Whether a metrics map contains a key. -/
def metricsContains (metrics : List (String × ℚ)) (key : String) : Bool :=
  metrics.any (fun kv => kv.1 = key)

/-- The Engine's collaborators (face detector, face parser, the two
generators and the compositor), held behind `unique_ptr`s in
`Engine::Impl` and specified at their interfaces; each is modelled as a
total function (so the `catch` branch of `processFrame`, reachable only
when a collaborator throws, is not modelled). -/
structure EngineComponents where
  detectFaces : Img → List Face
  parseFace : Img → Mask
  feedforwardGenerate : Img → AgeControls → Mask → Img
  diffusionGenerate : Img → AgeControls → Mask → Img
  compositeFace : Img → Img → Face → Img

/-- `Engine::Impl::processFrame` (engine.cpp). `elapsed_ms` models the
chrono-measured duration. Before initialization the default-constructed
result gets `success = false` and the message; with no supplied faces the
detector runs; with still no faces the input is cloned to the output and
the call succeeds with no metrics; otherwise every face is parsed,
transformed according to the processing mode (HYBRID matches neither
branch, leaving the default-constructed `processed_face`), composited
onto the shared output frame, and the metrics
`processing_time_ms` / `faces_processed` are emitted. -/
def processFrame (initialized : Bool) (comps : EngineComponents) (elapsed_ms : ℚ)
    (context : FrameContext) : ProcessingResult :=
  if !initialized then
    { output_frame := Img.mkEmpty, processed_faces := [], metrics := [],
      success := false, error_message := "Engine not initialized" }
  else
    let faces0 := context.detected_faces
    let faces := if faces0.isEmpty then comps.detectFaces context.input_frame else faces0
    if faces.isEmpty then
      { output_frame := context.input_frame.clone, processed_faces := [], metrics := [],
        success := true, error_message := "" }
    else
      let output_frame := faces.foldl (fun frame face =>
        let parsing_mask := comps.parseFace face.aligned_crop
        let processed_face :=
          if context.mode = ProcessingMode.FEEDFORWARD ∨
              context.mode = ProcessingMode.AUTO then
            comps.feedforwardGenerate face.aligned_crop context.controls parsing_mask
          else if context.mode = ProcessingMode.DIFFUSION then
            comps.diffusionGenerate face.aligned_crop context.controls parsing_mask
          else Img.mkEmpty
        comps.compositeFace frame processed_face face) context.input_frame.clone
      { output_frame := output_frame, processed_faces := faces,
        metrics := [("processing_time_ms", elapsed_ms),
                    ("faces_processed", (faces.length : ℚ))],
        success := true, error_message := "" }

/-- The mock face minimal_engine.cpp fabricates: a box covering the frame
center. `0.9f` is modelled as `9/10` (the float is within 2⁻²⁴ of it;
no claim observes the difference). -/
def mockFace (context : FrameContext) : Face :=
  { box := { x := (context.input_frame.cols : ℚ) * (1 / 4),
             y := (context.input_frame.rows : ℚ) * (1 / 4),
             width := (context.input_frame.cols : ℚ) * (1 / 2),
             height := (context.input_frame.rows : ℚ) * (1 / 2),
             confidence := 9 / 10, face_id := 1 },
    aligned_crop := Img.mkEmpty, track_id := 1, frame_number := context.frame_number }

/-- `Engine::Impl::processFrame` (minimal_engine.cpp): the minimal build
simulates processing. Not initialized, or an empty input frame, leaves
the default-constructed result (success false, empty output) with only
the error message set; otherwise the input is copied to the output, one
mock face is reported, and the fixed metrics `processing_time_ms`,
`face_count`, `confidence` are emitted (note: no `faces_processed`). -/
def minimalProcessFrame (initialized : Bool) (context : FrameContext) : ProcessingResult :=
  if !initialized then
    { output_frame := Img.mkEmpty, processed_faces := [], metrics := [],
      success := false, error_message := "Engine not initialized" }
  else if context.input_frame.isEmpty then
    { output_frame := Img.mkEmpty, processed_faces := [], metrics := [],
      success := false, error_message := "Empty input frame" }
  else
    { output_frame := context.input_frame, processed_faces := [mockFace context],
      metrics := [("processing_time_ms", 50), ("face_count", 1), ("confidence", 9 / 10)],
      success := true, error_message := "" }

/-! ## Engine fixtures for witnesses and counterexamples -/

/-- Trivial collaborators: detector finds nothing, parser returns the
empty mask, generators echo the crop, compositor leaves the frame. -/
def trivialComponents : EngineComponents :=
  { detectFaces := fun _ => [],
    parseFace := fun _ => Mask.none,
    feedforwardGenerate := fun crop _ _ => crop,
    diffusionGenerate := fun crop _ _ => crop,
    compositeFace := fun frame _ _ => frame }

/-- AgeControls with the minimal_types.h defaults. -/
def defaultControls : AgeControls :=
  ⟨25, 8 / 10, 9 / 10, 6 / 10, 0, true, true, true, 1 / 2⟩

/-- A 4×4 test frame. -/
def exampleFrame : Img := ⟨4, 4, 3, fun _ _ _ => 10⟩

/-- A context with no supplied faces. -/
def exampleContext : FrameContext :=
  ⟨0, exampleFrame, [], defaultControls, ProcessingMode.FEEDFORWARD⟩

/-- A face whose aligned crop is the test frame itself. -/
def exampleFace : Face :=
  ⟨⟨1, 1, 2, 2, 9 / 10, 1⟩, exampleFrame, 1, 0⟩

/-- A HYBRID-mode context with one supplied face. -/
def exampleHybridContext : FrameContext :=
  ⟨0, exampleFrame, [exampleFace], defaultControls, ProcessingMode.HYBRID⟩

/-! ## C1: processFrame before initialization -/

/-- C1: calling processFrame before initialization completes yields
success = false, the non-empty message "Engine not initialized", and an
empty output frame, for every context and every set of collaborators —
in both the full engine and the minimal engine. -/
theorem processFrame_not_initialized (initialized : Bool) (comps : EngineComponents)
    (elapsed_ms : ℚ) (context : FrameContext) (h : initialized = false) :
    ((processFrame initialized comps elapsed_ms context).success = false ∧
     (processFrame initialized comps elapsed_ms context).error_message =
       "Engine not initialized" ∧
     (processFrame initialized comps elapsed_ms context).error_message ≠ "" ∧
     (processFrame initialized comps elapsed_ms context).output_frame.isEmpty = true) ∧
    ((minimalProcessFrame initialized context).success = false ∧
     (minimalProcessFrame initialized context).error_message = "Engine not initialized" ∧
     (minimalProcessFrame initialized context).error_message ≠ "" ∧
     (minimalProcessFrame initialized context).output_frame.isEmpty = true) := by
  subst h
  have h1 : (processFrame false comps elapsed_ms context).error_message =
      "Engine not initialized" := rfl
  have h2 : (minimalProcessFrame false context).error_message =
      "Engine not initialized" := rfl
  refine ⟨⟨rfl, h1, ?_, rfl⟩, ⟨rfl, h2, ?_, rfl⟩⟩
  · rw [h1]; decide
  · rw [h2]; decide

theorem processFrame_not_initialized_witness :
    ((processFrame false trivialComponents 5 exampleContext).success = false ∧
     (processFrame false trivialComponents 5 exampleContext).error_message =
       "Engine not initialized" ∧
     (processFrame false trivialComponents 5 exampleContext).error_message ≠ "" ∧
     (processFrame false trivialComponents 5 exampleContext).output_frame.isEmpty = true) ∧
    ((minimalProcessFrame false exampleContext).success = false ∧
     (minimalProcessFrame false exampleContext).error_message = "Engine not initialized" ∧
     (minimalProcessFrame false exampleContext).error_message ≠ "" ∧
     (minimalProcessFrame false exampleContext).output_frame.isEmpty = true) :=
  processFrame_not_initialized false trivialComponents 5 exampleContext rfl

/-! ## C2: no-face pass-through -/

/-- C2: for an initialized engine, when the context supplies no faces and
the detector finds none, processFrame succeeds and the output frame is a
byte-for-byte copy of the input frame. -/
theorem processFrame_passthrough (initialized : Bool) (comps : EngineComponents)
    (elapsed_ms : ℚ) (context : FrameContext)
    (hinit : initialized = true)
    (hsupplied : context.detected_faces = [])
    (hdetect : comps.detectFaces context.input_frame = []) :
    (processFrame initialized comps elapsed_ms context).success = true ∧
    (processFrame initialized comps elapsed_ms context).output_frame =
      context.input_frame := by
  subst hinit
  unfold processFrame
  simp [hsupplied, hdetect, Img.clone]

theorem processFrame_passthrough_witness :
    (processFrame true trivialComponents 5 exampleContext).success = true ∧
    (processFrame true trivialComponents 5 exampleContext).output_frame =
      exampleContext.input_frame :=
  processFrame_passthrough true trivialComponents 5 exampleContext rfl rfl rfl

/-! ## C3: success metrics -/

/-- C3 counterexample: an initialized engine on the no-face pass-through
path returns success = true with an empty metrics map — neither
`processing_time_ms` nor `faces_processed` is present. -/
theorem processFrame_success_without_metrics :
    (processFrame true trivialComponents 5 exampleContext).success = true ∧
    (processFrame true trivialComponents 5 exampleContext).metrics = [] ∧
    metricsContains (processFrame true trivialComponents 5 exampleContext).metrics
      "faces_processed" = false ∧
    metricsContains (processFrame true trivialComponents 5 exampleContext).metrics
      "processing_time_ms" = false :=
  ⟨rfl, rfl, rfl, rfl⟩

/-- C3 amended: on the per-face processing path — when faces were
supplied or detected — a successful processFrame emits both
`processing_time_ms` and `faces_processed`. -/
theorem processFrame_metrics_on_faces (initialized : Bool) (comps : EngineComponents)
    (elapsed_ms : ℚ) (context : FrameContext)
    (hinit : initialized = true)
    (hfaces : (if context.detected_faces.isEmpty then
        comps.detectFaces context.input_frame else context.detected_faces) ≠ []) :
    (processFrame initialized comps elapsed_ms context).success = true ∧
    metricsContains (processFrame initialized comps elapsed_ms context).metrics
      "processing_time_ms" = true ∧
    metricsContains (processFrame initialized comps elapsed_ms context).metrics
      "faces_processed" = true := by
  subst hinit
  unfold processFrame
  obtain ⟨f, rest, hfaces⟩ := List.exists_cons_of_ne_nil hfaces
  simp [hfaces, metricsContains]

theorem processFrame_metrics_on_faces_witness :
    (processFrame true trivialComponents 5 exampleHybridContext).success = true ∧
    metricsContains (processFrame true trivialComponents 5 exampleHybridContext).metrics
      "processing_time_ms" = true ∧
    metricsContains (processFrame true trivialComponents 5 exampleHybridContext).metrics
      "faces_processed" = true :=
  processFrame_metrics_on_faces true trivialComponents 5 exampleHybridContext rfl
    (by simp [exampleHybridContext])

/-! ## C10: HYBRID mode bypasses both generators -/

/-- C10: in HYBRID mode with a non-empty face list, processFrame invokes
neither generator — replacing both generator implementations leaves the
result unchanged — and the crop composited for each face is the
default-constructed empty image: the output frame is exactly the fold of
empty-crop composites over the face list. -/
theorem processFrame_hybrid_skips_generators (initialized : Bool)
    (comps : EngineComponents) (g1 g2 : Img → AgeControls → Mask → Img)
    (elapsed_ms : ℚ) (context : FrameContext)
    (hinit : initialized = true)
    (hmode : context.mode = ProcessingMode.HYBRID)
    (hfaces : (if context.detected_faces.isEmpty then
        comps.detectFaces context.input_frame else context.detected_faces) ≠ []) :
    processFrame initialized
        { comps with feedforwardGenerate := g1, diffusionGenerate := g2 }
        elapsed_ms context = processFrame initialized comps elapsed_ms context ∧
    (processFrame initialized comps elapsed_ms context).output_frame =
      (if context.detected_faces.isEmpty then
        comps.detectFaces context.input_frame else context.detected_faces).foldl
        (fun frame face => comps.compositeFace frame Img.mkEmpty face)
        context.input_frame.clone ∧
    Img.mkEmpty.isEmpty = true := by
  subst hinit
  unfold processFrame
  obtain ⟨f, rest, hfaces⟩ := List.exists_cons_of_ne_nil hfaces
  simp [hfaces, hmode, Img.isEmpty, Img.mkEmpty]

theorem processFrame_hybrid_skips_generators_witness :
    processFrame true
        { trivialComponents with
          feedforwardGenerate := fun _ _ _ => exampleFrame,
          diffusionGenerate := fun _ _ _ => exampleFrame }
        5 exampleHybridContext = processFrame true trivialComponents 5 exampleHybridContext ∧
    (processFrame true trivialComponents 5 exampleHybridContext).output_frame =
      (if exampleHybridContext.detected_faces.isEmpty then
        trivialComponents.detectFaces exampleHybridContext.input_frame
        else exampleHybridContext.detected_faces).foldl
        (fun frame face => trivialComponents.compositeFace frame Img.mkEmpty face)
        exampleHybridContext.input_frame.clone ∧
    Img.mkEmpty.isEmpty = true :=
  processFrame_hybrid_skips_generators true trivialComponents
    (fun _ _ _ => exampleFrame) (fun _ _ _ => exampleFrame) 5 exampleHybridContext rfl rfl
    (by simp [exampleHybridContext])

/-! ## C9: the Face Compositor (spec-modelled) -/

/-- `BlendConfig`: the Compositor's mutable settings, per the setters
declared in compositor.h (`setBlendingMode`, `setFeatherRadius`,
`enableColorCorrection`, `setDetailReinjectionStrength`). -/
structure BlendConfig where
  blending_mode : String
  feather_radius : Nat
  color_correction : Bool
  detail_reinjection_strength : ℚ

/-- Modelled from the spec: the feather falloff of §4.3 — alpha 1 in the
crop interior falling toward 0 within `radius` of the crop boundary;
radius 0 means hard-edge placement (alpha 1 everywhere). Modelled as the
normalized distance from the nearest crop edge, clamped to [0, 1]. -/
def featherAlpha (radius rows cols cy cx : Nat) : ℚ :=
  if radius = 0 then 1
  else min 1 (((min (min (cy + 1) (rows - cy)) (min (cx + 1) (cols - cx)) : Nat) : ℚ) /
    (radius : ℚ))

/-- Modelled from the spec: `Compositor::compositeFace` — the Compositor
implementation file is absent from src/ (only ufra/compositor.h and
tests/test_compositor.cpp exist). Per spec §4.3: an empty `faceCrop` is a
strict no-op (the frame is returned byte-for-byte unchanged); otherwise
the crop is placed at the rectangle given by the detection box, clipped
to the frame bounds (a fully outside rectangle writes nothing), and each
overlapping pixel is alpha-blended between the existing frame content
and the crop value with the feather falloff. The frame's dimensions and
channel count never change. The Poisson/Multiband modes and the optional
color-correction/detail-reinjection passes refine the written values
only; they are modelled by the Linear path, which the spec designates as
the fallback for unrecognized modes. -/
def compositeFace (cfg : BlendConfig) (target_frame : Img) (processed_face : Img)
    (face_info : Face) : Img :=
  if processed_face.isEmpty then target_frame
  else
    let rx : Int := ⌊face_info.box.x⌋
    let ry : Int := ⌊face_info.box.y⌋
    ⟨target_frame.rows, target_frame.cols, target_frame.channels, fun y x c =>
      if y < target_frame.rows ∧ x < target_frame.cols ∧
          ry ≤ (y : Int) ∧ (y : Int) < ry + processed_face.rows ∧
          rx ≤ (x : Int) ∧ (x : Int) < rx + processed_face.cols then
        let cy := ((y : Int) - ry).toNat
        let cx := ((x : Int) - rx).toNat
        let alpha := featherAlpha cfg.feather_radius processed_face.rows
          processed_face.cols cy cx
        saturateCastUChar (alpha * (processed_face.px cy cx c : ℚ) +
          (1 - alpha) * (target_frame.px y x c : ℚ))
      else target_frame.px y x c⟩

/-- C9: compositing an empty face crop onto a frame is a strict no-op:
the target frame is returned byte-for-byte unchanged, for every frame,
face geometry and compositor configuration. -/
theorem compositeFace_empty_noop (cfg : BlendConfig) (target_frame : Img)
    (processed_face : Img) (face_info : Face)
    (h : processed_face.isEmpty = true) :
    compositeFace cfg target_frame processed_face face_info = target_frame := by
  unfold compositeFace
  rw [if_pos h]

/-- The default compositor configuration. -/
def exampleBlendConfig : BlendConfig := ⟨"linear", 5, false, 1 / 2⟩

theorem compositeFace_empty_noop_witness :
    compositeFace exampleBlendConfig exampleFrame Img.mkEmpty exampleFace =
      exampleFrame :=
  compositeFace_empty_noop exampleBlendConfig exampleFrame Img.mkEmpty exampleFace rfl
